import Mathlib

/-!
Verification of the execution coordinator in `src/plumbing/pretty.rs`
(function `prepare_and_run`) of the `gitoxide` repository.

The coordinator runs a fallible computation under one of three presentation
strategies selected from the boolean pair `(verbose, progress)`:
Direct, Line-Progress, or Dashboard.  In Dashboard mode two threads race on a
capacity-1 synchronous channel; the first event received decides the outcome.

The embedding is a shallow one: the computation is opaque data (its result and
the bytes it writes to its two sinks, possibly depending on the progress
handle it receives), process output is explicit state (`IOState`), and the
runtime nondeterminism of Dashboard mode (which event arrives first on the
channel, whether the final buffered writes to the real streams succeed) is an
explicit environment parameter (`DashboardEnv`).  The returned `RunTrace`
carries, besides the result and final output state, instrumentation that
records faithfully what the source wires up: which progress handle and which
sinks were handed to the computation, how many threads the coordinator itself
spawned, the TUI options it built, and the ordered list of coordinator
actions (spawns, join, buffered-output flush writes).
-/

namespace Pretty

/-- A single node of the progress tree, as handed to the computation.
Models `prodash::tree::Item`; prodash is an external collaborator, so only
the structure the coordinator creates (a named child) is represented. -/
structure ProgressItem where
  name : String
  deriving DecidableEq, Repr

/-- Model of `prodash::Tree`: the coordinator only ever creates one and adds
one named child to it. -/
structure Tree where
  children : List String
  deriving DecidableEq, Repr

/-- Models `prodash::Tree::new()`. -/
def Tree.new : Tree := ⟨[]⟩

/-- Models `tree.add_child(name)`: returns the new child item and the
updated tree. -/
def Tree.addChild (t : Tree) (n : String) : ProgressItem × Tree :=
  (⟨n⟩, ⟨t.children ++ [n]⟩)

/-- Modelled from the spec: `crate::shared::DEFAULT_FRAME_RATE` is code of
this repository that is not under `src/`.  The spec (section 6) says only
that it is a fixed frame-rate constant shared by the Line-Progress and
Dashboard renderers; no claim depends on its concrete value, so an arbitrary
fixed value stands in for it. -/
def DEFAULT_FRAME_RATE : Nat := 6

/-- Modelled from the spec: `crate::shared::setup_line_renderer` is code of
this repository that is not under `src/`.  Per the spec (sections 4.1, 5) it
starts a detached advisory line renderer for the given tree; the coordinator
only holds the returned handle so the renderer is torn down when the call
returns.  The handle records its construction arguments. -/
structure LineRendererHandle where
  tree : Tree
  arg : Nat
  deriving DecidableEq, Repr

/-- Modelled from the spec: constructor for the line-renderer handle, see
`LineRendererHandle`. -/
def setup_line_renderer (t : Tree) (n : Nat) : LineRendererHandle := ⟨t, n⟩

/-- The options record the coordinator passes to `prodash::tui::render`.
Only the fields the source sets explicitly are represented:
`title: "gitoxide"`, `frames_per_second: DEFAULT_FRAME_RATE`, and
`stop_if_empty_progress: !progress_keep_open` (the dashboard auto-exits when
the work is done exactly when this field is true). -/
structure TuiOptions where
  title : String
  framesPerSecond : Nat
  stopIfEmptyProgress : Bool
  deriving DecidableEq, Repr

/-- The three execution strategies of the coordinator. -/
inductive Strategy where
  | direct
  | lineProgress
  | dashboard
  deriving DecidableEq, Repr

/-- The strategy the source selects, read off the arms of its
`match (verbose, progress)`:
`(false, false)` is Direct, `(true, false)` is Line-Progress, and
`(true, true) | (false, true)` is Dashboard. -/
def selectedStrategy (verbose progress : Bool) : Strategy :=
  match verbose, progress with
  | false, false => Strategy.direct
  | true, false => Strategy.lineProgress
  | true, true => Strategy.dashboard
  | false, true => Strategy.dashboard

/-- The two real process streams. -/
inductive StreamId where
  | stdout
  | stderr
  deriving DecidableEq, Repr

/-- Identity of a sink handed to the computation: either one of the real
process streams, or one of the in-memory buffers (`Vec::new()`) created by
the Dashboard computation thread. -/
inductive SinkId where
  | realStdout
  | realStderr
  | bufferedStdout
  | bufferedStderr
  deriving DecidableEq, Repr

/-- Contents of the real process streams, as explicit state. -/
structure IOState where
  stdoutData : List UInt8
  stderrData : List UInt8
  deriving DecidableEq, Repr

/-- The result type of the coordinator.  In the source everything is an
`anyhow::Error`; the variants here keep the distinct error sources apart:
an error produced by the wrapped computation, the
`Operation cancelled by user` error of the UI-first path, the
`Error communicating with threads` error of a failed channel receive, and an
I/O error propagated by `?` from `write_all` on the named real stream. -/
inductive RunError (E : Type) where
  | computation (e : E)
  | cancelled
  | commFailure
  | ioWrite (target : StreamId)
  deriving DecidableEq, Repr

/-- The opaque computation handed to `prepare_and_run`: given the progress
handle it is passed (or none), it yields its result together with the bytes
it writes to its stdout sink and its stderr sink. -/
structure Computation (E T : Type) where
  exec : Option ProgressItem → Except E T × List UInt8 × List UInt8

/-- Which event the coordinator receives from the capacity-1 channel in
Dashboard mode: `uiDone` if the dashboard thread sends `Event::UIDone`
first, `computationDone` if the computation thread sends
`Event::ComputationDone` first, and `recvError` if `rx.recv()` fails because
no sender is left (all threads terminated without sending). -/
inductive FirstEvent where
  | uiDone
  | computationDone
  | recvError
  deriving DecidableEq, Repr

/-- Runtime environment of one Dashboard-mode invocation: the channel race
outcome and whether each of the two final `write_all` calls to the real
streams succeeds. -/
structure DashboardEnv where
  firstEvent : FirstEvent
  stdoutWriteOk : Bool
  stderrWriteOk : Bool
  deriving DecidableEq, Repr

/-- An action performed by the coordinator itself, in order: spawning the
two Dashboard threads, joining the UI thread, and flushing a buffer to a
real stream with `write_all` (recorded with the bytes written on success,
or as a failed attempt). -/
inductive Action where
  | spawnUiThread
  | spawnComputationThread
  | joinUiThread
  | writeAll (target : StreamId) (bytes : List UInt8)
  | writeAllFailed (target : StreamId)
  deriving DecidableEq, Repr

/-- Everything observable about one `prepare_and_run` invocation: its
result, the final contents of the real streams, and instrumentation read off
the source: the selected strategy, the progress handle and the sinks handed
to the computation, the number of threads the coordinator spawned with
`std::thread::spawn`, the TUI options built (Dashboard mode only), whether
the computation was invoked synchronously on the calling thread, and the
ordered coordinator actions. -/
structure RunTrace (E T : Type) where
  result : Except (RunError E) T
  finalState : IOState
  strategy : Strategy
  progressPassed : Option ProgressItem
  sinksPassed : Option (SinkId × SinkId)
  threadsSpawned : Nat
  tuiOptions : Option TuiOptions
  onCallingThread : Bool
  actions : List Action

/-- Shallow embedding of `prepare_and_run` from `src/plumbing/pretty.rs`.

The source matches on `(verbose, progress)`:
`(false, false)` calls the computation synchronously with no progress handle
and the real streams; `(true, false)` builds a tree, adds a child named
`name`, sets up the line renderer (`setup_line_renderer(progress, 2)`) and
calls the computation synchronously with the handle and the real streams;
`(true, true) | (false, true)` builds the tree and child, builds the TUI
with `stop_if_empty_progress: !progress_keep_open`, spawns the UI thread and
the computation thread (the latter writing into fresh `Vec::new()` buffers),
and blocks on one channel receive: `UIDone` yields the cancellation error
without joining or writing; `ComputationDone(res, out, err)` joins the UI
thread, then `write_all`s the out buffer to real stdout and the err buffer
to real stderr (each `?`-propagating its I/O error), then returns `res`; a
receive error yields the communication error.  (`init_env_logger` is
logging initialization with no bearing on any claim and is not modelled.) -/
def prepare_and_run {E T : Type} (name : String)
    (verbose progress progress_keep_open : Bool)
    (run : Computation E T) (st : IOState) (env : DashboardEnv) :
    RunTrace E T :=
  match verbose, progress with
  | false, false =>
    let r := run.exec none
    { result := r.1.mapError RunError.computation
      finalState := ⟨st.stdoutData ++ r.2.1, st.stderrData ++ r.2.2⟩
      strategy := Strategy.direct
      progressPassed := none
      sinksPassed := some (SinkId.realStdout, SinkId.realStderr)
      threadsSpawned := 0
      tuiOptions := none
      onCallingThread := true
      actions := [] }
  | true, false =>
    let t := Tree.new
    let sub_progress := (t.addChild name).1
    let _handle := setup_line_renderer (t.addChild name).2 2
    let r := run.exec (some sub_progress)
    { result := r.1.mapError RunError.computation
      finalState := ⟨st.stdoutData ++ r.2.1, st.stderrData ++ r.2.2⟩
      strategy := Strategy.lineProgress
      progressPassed := some sub_progress
      sinksPassed := some (SinkId.realStdout, SinkId.realStderr)
      threadsSpawned := 0
      tuiOptions := none
      onCallingThread := true
      actions := [] }
  | _, true =>
    let t := Tree.new
    let sub_progress := (t.addChild name).1
    let opts : TuiOptions :=
      { title := "gitoxide"
        framesPerSecond := DEFAULT_FRAME_RATE
        stopIfEmptyProgress := !progress_keep_open }
    match env.firstEvent with
    | FirstEvent.uiDone =>
      { result := Except.error RunError.cancelled
        finalState := st
        strategy := Strategy.dashboard
        progressPassed := some sub_progress
        sinksPassed := some (SinkId.bufferedStdout, SinkId.bufferedStderr)
        threadsSpawned := 2
        tuiOptions := some opts
        onCallingThread := false
        actions := [Action.spawnUiThread, Action.spawnComputationThread] }
    | FirstEvent.computationDone =>
      let r := run.exec (some sub_progress)
      if env.stdoutWriteOk then
        if env.stderrWriteOk then
          { result := r.1.mapError RunError.computation
            finalState := ⟨st.stdoutData ++ r.2.1, st.stderrData ++ r.2.2⟩
            strategy := Strategy.dashboard
            progressPassed := some sub_progress
            sinksPassed := some (SinkId.bufferedStdout, SinkId.bufferedStderr)
            threadsSpawned := 2
            tuiOptions := some opts
            onCallingThread := false
            actions := [Action.spawnUiThread, Action.spawnComputationThread,
              Action.joinUiThread,
              Action.writeAll StreamId.stdout r.2.1,
              Action.writeAll StreamId.stderr r.2.2] }
        else
          { result := Except.error (RunError.ioWrite StreamId.stderr)
            finalState := ⟨st.stdoutData ++ r.2.1, st.stderrData⟩
            strategy := Strategy.dashboard
            progressPassed := some sub_progress
            sinksPassed := some (SinkId.bufferedStdout, SinkId.bufferedStderr)
            threadsSpawned := 2
            tuiOptions := some opts
            onCallingThread := false
            actions := [Action.spawnUiThread, Action.spawnComputationThread,
              Action.joinUiThread,
              Action.writeAll StreamId.stdout r.2.1,
              Action.writeAllFailed StreamId.stderr] }
      else
        { result := Except.error (RunError.ioWrite StreamId.stdout)
          finalState := st
          strategy := Strategy.dashboard
          progressPassed := some sub_progress
          sinksPassed := some (SinkId.bufferedStdout, SinkId.bufferedStderr)
          threadsSpawned := 2
          tuiOptions := some opts
          onCallingThread := false
          actions := [Action.spawnUiThread, Action.spawnComputationThread,
            Action.joinUiThread,
            Action.writeAllFailed StreamId.stdout] }
    | FirstEvent.recvError =>
      { result := Except.error RunError.commFailure
        finalState := st
        strategy := Strategy.dashboard
        progressPassed := some sub_progress
        sinksPassed := some (SinkId.bufferedStdout, SinkId.bufferedStderr)
        threadsSpawned := 2
        tuiOptions := some opts
        onCallingThread := false
        actions := [Action.spawnUiThread, Action.spawnComputationThread] }

/-- The `VerifyPack` subcommand arguments declared in `mod options` of
`src/plumbing/pretty.rs` (the `format` field, of the external
`core::OutputFormat` type, is kept as its textual value; no claim depends
on it). -/
structure VerifyPackArgs where
  statistics : Bool
  format : String
  verbose : Bool
  progress : Bool
  progress_keep_open : Bool
  path : String
  deriving DecidableEq, Repr

/-- Modelled from the spec: the argument validation performed before the
coordinator runs is library behavior (structopt/clap) driven by the
attributes declared in the source: `progress` carries
`conflicts_with("verbose")`, and `progress_keep_open` carries both
`conflicts_with("verbose")` and `requires("progress")`.  Per the spec
(sections 3 and 8), a configuration violating these is rejected before
execution begins. -/
def argsAccepted (a : VerifyPackArgs) : Bool :=
  !(a.progress && a.verbose)
    && !(a.progress_keep_open && a.verbose)
    && (!a.progress_keep_open || a.progress)

/-- Model of `main` for the `VerifyPack` subcommand: arguments are validated
first, and only an accepted configuration reaches `prepare_and_run` (with
the name `verify-pack`, as in the source).  The wrapped verification routine
is abstracted as the opaque computation `run`. -/
def mainModel {E T : Type} (a : VerifyPackArgs) (run : Computation E T)
    (st : IOState) (env : DashboardEnv) : Option (RunTrace E T) :=
  if argsAccepted a then
    some (prepare_and_run "verify-pack" a.verbose a.progress a.progress_keep_open run st env)
  else none

/-- Concrete computation used by witnesses: succeeds with 42, writes the
bytes of `ok` plus a newline to its stdout sink and one byte to its stderr
sink, whatever progress handle it receives. -/
def compOk : Computation Unit Nat :=
  ⟨fun _ => (Except.ok 42, [111, 107, 10], [101])⟩

/-- Empty initial contents of the real streams, used by witnesses. -/
def stEmpty : IOState := ⟨[], []⟩

/-- Environment where the computation finishes first and both flush writes
succeed. -/
def envCompOk : DashboardEnv := ⟨FirstEvent.computationDone, true, true⟩

/-- Environment where the dashboard thread finishes first. -/
def envUiFirst : DashboardEnv := ⟨FirstEvent.uiDone, true, true⟩

/-- Environment where the channel receive fails. -/
def envRecvErr : DashboardEnv := ⟨FirstEvent.recvError, true, true⟩

/-- Environment where the computation finishes first but the flush of the
buffered stdout contents to the real stdout fails. -/
def envStdoutFail : DashboardEnv := ⟨FirstEvent.computationDone, false, true⟩

/-- Environment where the computation finishes first, the stdout flush
succeeds, and the stderr flush fails. -/
def envStderrFail : DashboardEnv := ⟨FirstEvent.computationDone, true, false⟩

/-- Concrete arguments with both `verbose` and `progress` set, used by the
C7 witness. -/
def argsBoth : VerifyPackArgs :=
  ⟨false, "human", true, true, false, "pack.idx"⟩

/-- Helper: a result coming from the wrapped computation is never the
cancellation error, whichever way the computation turned out. -/
theorem mapError_computation_ne_cancelled {E T : Type} (r : Except E T) :
    r.mapError RunError.computation ≠ Except.error RunError.cancelled := by
  cases r <;> simp [Except.mapError]

/-- C1: for every configuration (and every computation, initial output
state and runtime environment), the coordinator selects its strategy solely
from the pair `(verbose, progress)`: `(false, false)` runs Direct,
`(true, false)` runs Line-Progress, and any configuration with
`progress = true` runs Dashboard, regardless of `verbose`. -/
theorem strategy_selected_only_from_flags {E T : Type} (name : String)
    (verbose progress progress_keep_open : Bool) (run : Computation E T)
    (st : IOState) (env : DashboardEnv) :
    (prepare_and_run name verbose progress progress_keep_open run st env).strategy
      = selectedStrategy verbose progress := by
  obtain ⟨fe, so, se⟩ := env
  cases verbose <;> cases progress <;> cases fe <;> cases so <;> cases se <;> rfl

/-- C2 counterexample to the claim as stated: a concrete Dashboard-mode
invocation in which the output observed after the run is not byte-for-byte
what the computation wrote into its buffered sinks: the computation wrote
one byte to its stderr sink, but the flush of the buffered stderr contents
to the real stderr fails, so the real stderr still holds nothing while the
full stdout buffer was delivered. -/
theorem dashboard_flush_exact_counterexample :
    (prepare_and_run "verify-pack" false true false compOk stEmpty envStderrFail).finalState.stdoutData
        = stEmpty.stdoutData ++ (compOk.exec (some ⟨"verify-pack"⟩)).2.1
    ∧ (compOk.exec (some ⟨"verify-pack"⟩)).2.2 = [101]
    ∧ (prepare_and_run "verify-pack" false true false compOk stEmpty envStderrFail).finalState.stderrData
        = []
    ∧ (prepare_and_run "verify-pack" false true false compOk stEmpty envStderrFail).finalState.stderrData
        ≠ stEmpty.stderrData ++ (compOk.exec (some ⟨"verify-pack"⟩)).2.2 :=
  ⟨rfl, rfl, rfl, fun h => List.noConfusion h⟩

/-- C2 as amended: for every configuration with `progress = true`, when the
received event is the computation finishing and both flush writes succeed,
the bytes appearing on the real stdout and stderr after the run are exactly
the bytes the computation wrote into its buffered sinks, and the sinks
handed to the computation are the in-memory buffers rather than the real
streams, so no byte of its output reaches the real streams before the run
returns. -/
theorem dashboard_flush_exact {E T : Type} (name : String)
    (verbose progress_keep_open : Bool) (run : Computation E T)
    (st : IOState) (env : DashboardEnv)
    (hev : env.firstEvent = FirstEvent.computationDone)
    (hso : env.stdoutWriteOk = true) (hse : env.stderrWriteOk = true) :
    (prepare_and_run name verbose true progress_keep_open run st env).finalState.stdoutData
        = st.stdoutData ++ (run.exec (some ⟨name⟩)).2.1
    ∧ (prepare_and_run name verbose true progress_keep_open run st env).finalState.stderrData
        = st.stderrData ++ (run.exec (some ⟨name⟩)).2.2
    ∧ (prepare_and_run name verbose true progress_keep_open run st env).sinksPassed
        = some (SinkId.bufferedStdout, SinkId.bufferedStderr) := by
  obtain ⟨fe, so, se⟩ := env
  cases fe <;> cases so <;> cases se <;> cases verbose <;>
    first
      | exact ⟨rfl, rfl, rfl⟩
      | exact FirstEvent.noConfusion hev
      | exact Bool.noConfusion hso
      | exact Bool.noConfusion hse

/-- C2 witness: a concrete Dashboard-mode invocation where the computation
wrote three bytes to its stdout sink and one byte to its stderr sink and the
real streams started empty. -/
theorem dashboard_flush_exact_witness :
    (prepare_and_run "verify-pack" false true false compOk stEmpty envCompOk).finalState.stdoutData
        = stEmpty.stdoutData ++ (compOk.exec (some ⟨"verify-pack"⟩)).2.1
    ∧ (prepare_and_run "verify-pack" false true false compOk stEmpty envCompOk).finalState.stderrData
        = stEmpty.stderrData ++ (compOk.exec (some ⟨"verify-pack"⟩)).2.2
    ∧ (prepare_and_run "verify-pack" false true false compOk stEmpty envCompOk).sinksPassed
        = some (SinkId.bufferedStdout, SinkId.bufferedStderr) :=
  dashboard_flush_exact "verify-pack" false false compOk stEmpty envCompOk rfl rfl rfl

/-- C3: in Dashboard mode, when the UI-finished event is the one received,
the run returns the cancellation error, the real streams are left exactly as
they were whatever the computation produces, and the coordinator performs no
flush write to either real stream. -/
theorem ui_first_cancelled {E T : Type} (name : String)
    (verbose progress_keep_open : Bool) (run : Computation E T)
    (st : IOState) (env : DashboardEnv)
    (hev : env.firstEvent = FirstEvent.uiDone) :
    (prepare_and_run name verbose true progress_keep_open run st env).result
        = Except.error RunError.cancelled
    ∧ (prepare_and_run name verbose true progress_keep_open run st env).finalState = st
    ∧ ∀ s b, Action.writeAll s b ∉
        (prepare_and_run name verbose true progress_keep_open run st env).actions := by
  obtain ⟨fe, so, se⟩ := env
  cases fe <;> cases verbose <;>
    first
      | exact ⟨rfl, rfl, fun s b h => by simp [prepare_and_run] at h⟩
      | exact FirstEvent.noConfusion hev

/-- C3 witness: a concrete Dashboard-mode invocation where the dashboard is
closed first while the computation would have produced output and a result. -/
theorem ui_first_cancelled_witness :
    (prepare_and_run "verify-pack" false true false compOk stEmpty envUiFirst).result
        = Except.error RunError.cancelled
    ∧ (prepare_and_run "verify-pack" false true false compOk stEmpty envUiFirst).finalState = stEmpty
    ∧ ∀ s b, Action.writeAll s b ∉
        (prepare_and_run "verify-pack" false true false compOk stEmpty envUiFirst).actions :=
  ui_first_cancelled "verify-pack" false false compOk stEmpty envUiFirst rfl

/-- C4: in Dashboard mode, when the computation-finished event is the one
received and both flush writes succeed, the ordered coordinator actions are
exactly: spawn the UI thread, spawn the computation thread, join the UI
thread, write the buffered stdout contents fully to the real stdout, write
the buffered stderr contents fully to the real stderr; and the run returns
the outcome the computation produced. -/
theorem computation_first_order {E T : Type} (name : String)
    (verbose progress_keep_open : Bool) (run : Computation E T)
    (st : IOState) (env : DashboardEnv)
    (hev : env.firstEvent = FirstEvent.computationDone)
    (hso : env.stdoutWriteOk = true) (hse : env.stderrWriteOk = true) :
    (prepare_and_run name verbose true progress_keep_open run st env).actions
      = [Action.spawnUiThread, Action.spawnComputationThread, Action.joinUiThread,
         Action.writeAll StreamId.stdout (run.exec (some ⟨name⟩)).2.1,
         Action.writeAll StreamId.stderr (run.exec (some ⟨name⟩)).2.2]
    ∧ (prepare_and_run name verbose true progress_keep_open run st env).result
        = (run.exec (some ⟨name⟩)).1.mapError RunError.computation := by
  obtain ⟨fe, so, se⟩ := env
  cases fe <;> cases so <;> cases se <;> cases verbose <;>
    first
      | exact ⟨rfl, rfl⟩
      | exact FirstEvent.noConfusion hev
      | exact Bool.noConfusion hso
      | exact Bool.noConfusion hse

/-- C4 witness: the concrete action order and returned outcome for a
computation finishing first with both flush writes succeeding. -/
theorem computation_first_order_witness :
    (prepare_and_run "verify-pack" false true false compOk stEmpty envCompOk).actions
      = [Action.spawnUiThread, Action.spawnComputationThread, Action.joinUiThread,
         Action.writeAll StreamId.stdout (compOk.exec (some ⟨"verify-pack"⟩)).2.1,
         Action.writeAll StreamId.stderr (compOk.exec (some ⟨"verify-pack"⟩)).2.2]
    ∧ (prepare_and_run "verify-pack" false true false compOk stEmpty envCompOk).result
        = (compOk.exec (some ⟨"verify-pack"⟩)).1.mapError RunError.computation :=
  computation_first_order "verify-pack" false false compOk stEmpty envCompOk rfl rfl rfl

/-- C5 counterexample: a concrete Dashboard-mode invocation in which the
computation completes first (no cancellation occurs) and succeeds with 42,
yet the run does not return that outcome: the flush of the buffered stdout
contents fails and the run returns that I/O error instead. -/
theorem completion_outcome_counterexample :
    (compOk.exec (some ⟨"verify-pack"⟩)).1 = Except.ok 42
    ∧ (prepare_and_run "verify-pack" false true false compOk stEmpty envStdoutFail).result
        = Except.error (RunError.ioWrite StreamId.stdout)
    ∧ (prepare_and_run "verify-pack" false true false compOk stEmpty envStdoutFail).result
        ≠ Except.ok 42 :=
  ⟨rfl, rfl, fun h => Except.noConfusion h⟩

/-- C5 as amended: in every mode, if the computation completes before any
cancellation occurs, the run never returns the cancellation error; it
returns exactly the outcome the computation produced whenever no buffered
output has to be flushed (`progress = false`) or the flush writes to the
real streams succeed. -/
theorem completion_outcome_amended {E T : Type} (name : String)
    (verbose progress progress_keep_open : Bool) (run : Computation E T)
    (st : IOState) (env : DashboardEnv)
    (hc : progress = true → env.firstEvent = FirstEvent.computationDone) :
    (prepare_and_run name verbose progress progress_keep_open run st env).result
        ≠ Except.error RunError.cancelled
    ∧ (progress = false →
        (prepare_and_run name verbose progress progress_keep_open run st env).result
          = (run.exec
              (prepare_and_run name verbose progress progress_keep_open run st env).progressPassed).1.mapError
              RunError.computation)
    ∧ (env.stdoutWriteOk = true → env.stderrWriteOk = true →
        (prepare_and_run name verbose progress progress_keep_open run st env).result
          = (run.exec
              (prepare_and_run name verbose progress progress_keep_open run st env).progressPassed).1.mapError
              RunError.computation) := by
  obtain ⟨fe, so, se⟩ := env
  cases progress with
  | false =>
    cases verbose with
    | false => exact ⟨mapError_computation_ne_cancelled _, fun _ => rfl, fun _ _ => rfl⟩
    | true => exact ⟨mapError_computation_ne_cancelled _, fun _ => rfl, fun _ _ => rfl⟩
  | true =>
    have hfe : fe = FirstEvent.computationDone := hc rfl
    subst hfe
    cases verbose <;> cases so <;> cases se <;>
      first
        | exact ⟨mapError_computation_ne_cancelled _,
            fun h => Bool.noConfusion h, fun _ _ => rfl⟩
        | exact ⟨fun h => RunError.noConfusion (Except.error.inj h),
            fun h => Bool.noConfusion h, fun _ hse => Bool.noConfusion hse⟩
        | exact ⟨fun h => RunError.noConfusion (Except.error.inj h),
            fun h => Bool.noConfusion h, fun hso _ => Bool.noConfusion hso⟩

/-- C5 witness: a concrete Dashboard-mode invocation with the computation
finishing first and both flush writes succeeding returns the outcome
`Success 42`. -/
theorem completion_outcome_amended_witness :
    (prepare_and_run "verify-pack" false true false compOk stEmpty envCompOk).result
      = (compOk.exec
          (prepare_and_run "verify-pack" false true false compOk stEmpty envCompOk).progressPassed).1.mapError
          RunError.computation :=
  (completion_outcome_amended "verify-pack" false true false compOk stEmpty envCompOk
    (fun _ => rfl)).2.2 rfl rfl

/-- C6: for every configuration with `progress = false`, the coordinator
spawns no threads and performs no buffering: the computation is invoked
synchronously on the calling thread and the sinks handed to it are the real
stdout and stderr streams themselves; and in the Direct case
(`verbose = false`) no progress handle is passed and the result of the
computation is returned unchanged. -/
theorem no_progress_no_threads {E T : Type} (name : String)
    (verbose progress_keep_open : Bool) (run : Computation E T)
    (st : IOState) (env : DashboardEnv) :
    (prepare_and_run name verbose false progress_keep_open run st env).threadsSpawned = 0
    ∧ (prepare_and_run name verbose false progress_keep_open run st env).sinksPassed
        = some (SinkId.realStdout, SinkId.realStderr)
    ∧ (prepare_and_run name verbose false progress_keep_open run st env).onCallingThread = true
    ∧ (verbose = false →
        (prepare_and_run name verbose false progress_keep_open run st env).progressPassed = none
        ∧ (prepare_and_run name verbose false progress_keep_open run st env).result
            = (run.exec none).1.mapError RunError.computation) := by
  cases verbose with
  | false => exact ⟨rfl, rfl, rfl, fun _ => ⟨rfl, rfl⟩⟩
  | true => exact ⟨rfl, rfl, rfl, fun h => Bool.noConfusion h⟩

/-- C6 witness: the Direct case at a concrete input, with the inner
`verbose = false` hypothesis discharged. -/
theorem no_progress_no_threads_witness :
    (prepare_and_run "verify-pack" false false false compOk stEmpty envCompOk).progressPassed = none
    ∧ (prepare_and_run "verify-pack" false false false compOk stEmpty envCompOk).result
        = (compOk.exec none).1.mapError RunError.computation :=
  (no_progress_no_threads "verify-pack" false false compOk stEmpty envCompOk).2.2.2 rfl

/-- C7: a configuration with both `verbose = true` and `progress = true` is
rejected by argument validation before execution begins, so the coordinator
is never run with both flags set: the model of `main` yields no run trace
for such arguments. -/
theorem both_flags_rejected {E T : Type} (a : VerifyPackArgs)
    (run : Computation E T) (st : IOState) (env : DashboardEnv)
    (hv : a.verbose = true) (hp : a.progress = true) :
    argsAccepted a = false
    ∧ mainModel a run st env = (none : Option (RunTrace E T)) := by
  have h : argsAccepted a = false := by simp [argsAccepted, hv, hp]
  exact ⟨h, by simp [mainModel, h]⟩

/-- C7 witness: the concrete argument vector with both flags set is
rejected and never reaches the coordinator. -/
theorem both_flags_rejected_witness :
    argsAccepted argsBoth = false
    ∧ mainModel argsBoth compOk stEmpty envCompOk = (none : Option (RunTrace Unit Nat)) :=
  both_flags_rejected argsBoth compOk stEmpty envCompOk rfl rfl

/-- C8: in Dashboard mode, when the channel receive fails because no sender
is left, the run returns the communication error, a value distinct both from
every computation error and from the cancellation error. -/
theorem recv_failure_comm_error {E T : Type} (name : String)
    (verbose progress_keep_open : Bool) (run : Computation E T)
    (st : IOState) (env : DashboardEnv)
    (hev : env.firstEvent = FirstEvent.recvError) :
    (prepare_and_run name verbose true progress_keep_open run st env).result
        = Except.error RunError.commFailure
    ∧ (∀ e : E, (RunError.commFailure : RunError E) ≠ RunError.computation e)
    ∧ (RunError.commFailure : RunError E) ≠ RunError.cancelled := by
  obtain ⟨fe, so, se⟩ := env
  cases fe <;> cases verbose <;>
    first
      | exact ⟨rfl, fun e h => RunError.noConfusion h, fun h => RunError.noConfusion h⟩
      | exact FirstEvent.noConfusion hev

/-- C8 witness: the communication error at a concrete failed receive, and
its distinctness from a concrete computation error and from cancellation. -/
theorem recv_failure_comm_error_witness :
    (prepare_and_run "verify-pack" false true false compOk stEmpty envRecvErr).result
        = Except.error RunError.commFailure
    ∧ (RunError.commFailure : RunError Unit) ≠ RunError.computation ()
    ∧ (RunError.commFailure : RunError Unit) ≠ RunError.cancelled :=
  ⟨(recv_failure_comm_error "verify-pack" false false compOk stEmpty envRecvErr rfl).1,
   (recv_failure_comm_error "verify-pack" false false compOk stEmpty envRecvErr rfl).2.1 (),
   (recv_failure_comm_error "verify-pack" false false compOk stEmpty envRecvErr rfl).2.2⟩

/-- C9: in Dashboard mode the coordinator builds the TUI options with
`stop_if_empty_progress` set to the negation of `progress_keep_open`: the
dashboard is configured to auto-exit on completion of the work exactly when
`progress_keep_open` is false. -/
theorem dashboard_auto_exit_option {E T : Type} (name : String)
    (verbose progress_keep_open : Bool) (run : Computation E T)
    (st : IOState) (env : DashboardEnv) :
    (prepare_and_run name verbose true progress_keep_open run st env).tuiOptions
      = some ⟨"gitoxide", DEFAULT_FRAME_RATE, !progress_keep_open⟩ := by
  obtain ⟨fe, so, se⟩ := env
  cases verbose <;> cases fe <;> cases so <;> cases se <;> rfl

/-- C10: in Dashboard mode, when the computation finishes first, a failure
of the flush of the buffered stdout contents makes the run return that I/O
error, and a failure of the stderr flush after a successful stdout flush
makes it return the stderr I/O error — in either case instead of the
outcome the computation produced. -/
theorem flush_error_overrides_outcome {E T : Type} (name : String)
    (verbose progress_keep_open : Bool) (run : Computation E T)
    (st : IOState) (env : DashboardEnv)
    (hev : env.firstEvent = FirstEvent.computationDone) :
    (env.stdoutWriteOk = false →
      (prepare_and_run name verbose true progress_keep_open run st env).result
        = Except.error (RunError.ioWrite StreamId.stdout))
    ∧ (env.stdoutWriteOk = true → env.stderrWriteOk = false →
      (prepare_and_run name verbose true progress_keep_open run st env).result
        = Except.error (RunError.ioWrite StreamId.stderr)) := by
  obtain ⟨fe, so, se⟩ := env
  cases fe <;> cases verbose <;> cases so <;> cases se <;>
    first
      | exact ⟨fun h => Bool.noConfusion h, fun _ hse => Bool.noConfusion hse⟩
      | exact ⟨fun h => Bool.noConfusion h, fun _ _ => rfl⟩
      | exact ⟨fun _ => rfl, fun h _ => Bool.noConfusion h⟩
      | exact FirstEvent.noConfusion hev

/-- C10 witness: with a computation that succeeds with 42, a failed stdout
flush yields the stdout I/O error, and a failed stderr flush after a
successful stdout flush yields the stderr I/O error. -/
theorem flush_error_overrides_outcome_witness :
    (prepare_and_run "verify-pack" false true false compOk stEmpty envStdoutFail).result
        = Except.error (RunError.ioWrite StreamId.stdout)
    ∧ (prepare_and_run "verify-pack" false true false compOk stEmpty envStderrFail).result
        = Except.error (RunError.ioWrite StreamId.stderr) :=
  ⟨(flush_error_overrides_outcome "verify-pack" false false compOk stEmpty envStdoutFail rfl).1 rfl,
   (flush_error_overrides_outcome "verify-pack" false false compOk stEmpty envStderrFail rfl).2 rfl rfl⟩

end Pretty
